import Mathlib

/-!
A shallow embedding of the request-orchestration hook in
src/useApiRequest.ts: the module-level cache, the cached-data lookup,
the manual data setter, the reset operation, and the recursive
fetch-with-retry driver, together with theorems about their behavior.

Data and error values are modelled by a JavaScript-like value type
JSVal whose truthiness mirrors the JS rules used by the source
(the checks on cachedData, cacheKey and newData are truthiness tests).
Time is an explicit natural-number clock threaded through the
functions; awaiting a delay advances the clock. The host-supplied
operation is a function from the invocation index (how many times the
operation has been invoked so far) to an outcome, so that a run records
exactly how many invocations occurred.
-/

namespace UseApiRequest

/-- JavaScript-like values for TData and TError. -/
inductive JSVal where
  | num (n : Int)
  | str (s : String)
  | bool (b : Bool)
deriving DecidableEq, Repr

/-- JS truthiness: 0, the empty string and false are falsy. -/
def JSVal.truthy : JSVal → Bool
  | .num n => !(n == 0)
  | .str s => !(s == "")
  | .bool b => b

/-- Truthiness of a nullable value: null is falsy. -/
def truthyOpt : Option JSVal → Bool
  | none => false
  | some v => v.truthy

/-- One cache entry, mirroring interface CacheItem from the source:
data plus the timestamp at which it was stored. -/
structure CacheItem where
  data : JSVal
  timestamp : Nat
deriving DecidableEq, Repr

/-- The module-level cache object, a record keyed by strings. -/
abbrev Cache := List (String × CacheItem)

/-- Lookup of cache[k]. -/
def cacheLookup : Cache → String → Option CacheItem
  | [], _ => none
  | (k1, it) :: rest, k => if k1 = k then some it else cacheLookup rest k

/-- Assignment cache[k] = it, overwriting any previous entry for k. -/
def cacheSet : Cache → String → CacheItem → Cache
  | [], k, it => [(k, it)]
  | (k1, it1) :: rest, k, it =>
      if k1 = k then (k, it) :: rest else (k1, it1) :: cacheSet rest k it

/-- Deletion of cache[k]. -/
def cacheDelete : Cache → String → Cache
  | [], _ => []
  | (k1, it1) :: rest, k =>
      if k1 = k then cacheDelete rest k else (k1, it1) :: cacheDelete rest k

/-- Request status, mirroring type RequestStatus in the source. -/
inductive RequestStatus where
  | idle
  | loading
  | success
  | error
deriving DecidableEq, Repr

/-- The orchestrator state: the five useState cells of the hook. -/
structure ReqState where
  data : Option JSVal
  status : RequestStatus
  error : Option JSVal
  retryCount : Nat
  isFetched : Bool
deriving DecidableEq, Repr

/-- Default retryDelay from the source:
attempt maps to min(1000 * 2 ** attempt, 30000). -/
def defaultRetryDelay (attempt : Nat) : Nat :=
  min (1000 * 2 ^ attempt) 30000

/-- The hook options after defaulting, mirroring UseApiRequestOptions
and the destructuring defaults in the source. -/
structure Config where
  manual : Bool := false
  initialData : Option JSVal := none
  delay : Nat := 0
  shouldCache : Bool := false
  cacheKey : Option String := none
  cacheTTL : Nat := 5 * 60 * 1000
  autoRetry : Bool := false
  maxRetries : Nat := 3
  retryDelay : Nat → Nat := defaultRetryDelay

/-- getCachedData from the source: returns null unless caching is on
and a cacheKey is truthy; evicts and returns null when the entry is
older than cacheTTL; otherwise returns the stored data. Returns the
possibly updated cache as the second component. -/
def getCachedData (shouldCache : Bool) (cacheKey : Option String)
    (cacheTTL : Nat) (c : Cache) (now : Nat) : Option JSVal × Cache :=
  match cacheKey with
  | none => (none, c)
  | some k =>
    if !shouldCache || k == "" then (none, c)
    else
      match cacheLookup c k with
      | none => (none, c)
      | some cachedItem =>
        if now - cachedItem.timestamp > cacheTTL then (none, cacheDelete c k)
        else (some cachedItem.data, c)

/-- The cache write on operation success (source line 194): performed
whenever shouldCache holds and cacheKey is truthy. -/
def writeCache (cfg : Config) (c : Cache) (v : JSVal) (now : Nat) : Cache :=
  match cfg.cacheKey with
  | none => c
  | some k => if cfg.shouldCache && !(k == "") then cacheSet c k ⟨v, now⟩ else c

/-- setData from the source: overwrites data; when the new value is
non-null it sets status to success and, when shouldCache, cacheKey and
the new value are all truthy, stores the value in the cache. -/
def setData (cfg : Config) (st : ReqState) (c : Cache) (now : Nat)
    (newData : Option JSVal) : ReqState × Cache :=
  match newData with
  | none => ({ st with data := none }, c)
  | some v =>
      ({ st with data := some v, status := .success },
       if v.truthy then writeCache cfg c v now else c)

/-- reset from the source: restore initialData, go idle, clear error,
zero the retry counter, clear isFetched. -/
def reset (cfg : Config) (_st : ReqState) : ReqState :=
  { data := cfg.initialData
    status := .idle
    error := none
    retryCount := 0
    isFetched := false }

deriving instance DecidableEq for Except

/-- Result of running fetchWithRetry to completion: final state, final
cache, final clock, total number of operation invocations so far, and
the settled outcome of the returned promise. -/
structure FetchRes where
  st : ReqState
  cache : Cache
  now : Nat
  calls : Nat
  result : Except JSVal JSVal
deriving DecidableEq, Repr

/-- The truthiness test the source applies to the value returned by
getCachedData: a truthy cached value is a hit, null or a falsy cached
value is a miss. -/
def cacheHitValue : Option JSVal → Option JSVal
  | some v => if v.truthy then some v else none
  | none => none

/-- fetchWithRetry from the source. The cache is consulted first and a
truthy cached value resolves the call without invoking the operation.
On a miss the optional start delay elapses, the operation runs at the
current invocation index, and on failure the error is recorded; when
autoRetry holds and attempt is below maxRetries the retry counter is
bumped, the backoff delay elapses and the function recurses with
attempt + 1, otherwise the error is rethrown. A rejection arising
inside the catch block, including the rejection of the recursive call,
propagates to the caller, so an exhausted retry chain rejects with the
error of its final attempt. getCachedData is pure, so projecting its
two components repeats no side effect; the source binds it once. -/
def fetchWithRetry (cfg : Config) (op : Nat → Except JSVal JSVal)
    (st : ReqState) (c : Cache) (now calls attempt : Nat) : FetchRes :=
  match cacheHitValue (getCachedData cfg.shouldCache cfg.cacheKey cfg.cacheTTL c now).1 with
  | some v =>
      { st := { (setData cfg st (getCachedData cfg.shouldCache cfg.cacheKey cfg.cacheTTL c now).2
                   now (some v)).1 with status := .success }
        cache := (setData cfg st (getCachedData cfg.shouldCache cfg.cacheKey cfg.cacheTTL c now).2
                   now (some v)).2
        now := now
        calls := calls
        result := .ok v }
  | none =>
      match op calls with
      | .ok result =>
          { st := { (setData cfg st (getCachedData cfg.shouldCache cfg.cacheKey cfg.cacheTTL c now).2
                       (now + cfg.delay) (some result)).1 with
                      status := .success, isFetched := true, retryCount := 0 }
            cache := writeCache cfg
              (setData cfg st (getCachedData cfg.shouldCache cfg.cacheKey cfg.cacheTTL c now).2
                (now + cfg.delay) (some result)).2
              result (now + cfg.delay)
            now := now + cfg.delay
            calls := calls + 1
            result := .ok result }
      | .error e =>
          if h : cfg.autoRetry = true ∧ attempt < cfg.maxRetries then
            fetchWithRetry cfg op
              { st with error := some e, status := .error, isFetched := true,
                        retryCount := attempt + 1 }
              (getCachedData cfg.shouldCache cfg.cacheKey cfg.cacheTTL c now).2
              (now + cfg.delay + cfg.retryDelay attempt) (calls + 1) (attempt + 1)
          else
            { st := { st with error := some e, status := .error, isFetched := true }
              cache := (getCachedData cfg.shouldCache cfg.cacheKey cfg.cacheTTL c now).2
              now := now + cfg.delay
              calls := calls + 1
              result := .error e }
termination_by cfg.maxRetries + 1 - attempt
decreasing_by
  simp_wf
  omega

/-- The externally exposed fetch (refetch): set status to loading and
run fetchWithRetry with attempt 0. -/
def fetch (cfg : Config) (op : Nat → Except JSVal JSVal)
    (st : ReqState) (c : Cache) (now calls : Nat) : FetchRes :=
  fetchWithRetry cfg op { st with status := .loading } c now calls 0

/-- The initial state of the hook: data is getCachedData() or else
initialData (a truthiness choice), status is idle when manual and
loading otherwise, and the remaining cells start at null, 0, false. -/
def initState (cfg : Config) (c : Cache) (now : Nat) : ReqState × Cache :=
  let gc := getCachedData cfg.shouldCache cfg.cacheKey cfg.cacheTTL c now
  ({ data :=
       match gc.1 with
       | some v => if v.truthy then some v else cfg.initialData
       | none => cfg.initialData
     status := if cfg.manual then .idle else .loading
     error := none
     retryCount := 0
     isFetched := false }, gc.2)

/-- Outcome of mounting the hook: the state after initialization and
the auto-execute effect, how many operation invocations happened, and
whether the effect invoked fetch. -/
structure MountRes where
  st : ReqState
  cache : Cache
  calls : Nat
  invoked : Bool
deriving DecidableEq, Repr

/-- Mounting the hook: initialize the state cells, then run the
auto-execute effect, which calls fetch exactly when manual is false. -/
def mount (cfg : Config) (op : Nat → Except JSVal JSVal)
    (c : Cache) (now : Nat) : MountRes :=
  let ini := initState cfg c now
  if cfg.manual then
    { st := ini.1, cache := ini.2, calls := 0, invoked := false }
  else
    let r := fetch cfg op ini.1 ini.2 now 0
    { st := r.st, cache := r.cache, calls := r.calls, invoked := true }

/-! Helper lemmas about the cache primitives and the fetch driver. -/

theorem cacheLookup_cacheSet_self (c : Cache) (k : String) (it : CacheItem) :
    cacheLookup (cacheSet c k it) k = some it := by
  induction c with
  | nil => simp [cacheSet, cacheLookup]
  | cons hd tl ih =>
    by_cases h : hd.1 = k
    · simp [cacheSet, cacheLookup, h]
    · simp [cacheSet, cacheLookup, h, ih]

theorem cacheLookup_cacheDelete_self (c : Cache) (k : String) :
    cacheLookup (cacheDelete c k) k = none := by
  induction c with
  | nil => simp [cacheDelete, cacheLookup]
  | cons hd tl ih =>
    by_cases h : hd.1 = k
    · simp [cacheDelete, cacheLookup, h, ih]
    · simp [cacheDelete, cacheLookup, h, ih]

theorem cacheHitValue_eq_none_iff (g : Option JSVal) :
    cacheHitValue g = none ↔ truthyOpt g = false := by
  cases g with
  | none => simp [cacheHitValue, truthyOpt]
  | some v =>
    by_cases hv : v.truthy <;> simp [cacheHitValue, truthyOpt, hv]

/-- Once the cache check misses, every later check on the cache state
it returns also misses: a miss is caused by caching being off, a falsy
key, an absent or evicted entry, or a stored falsy value, and each of
these conditions persists. -/
theorem getCachedData_miss_persists (sc : Bool) (key : Option String)
    (ttl : Nat) (c : Cache) (now now2 : Nat)
    (h : cacheHitValue (getCachedData sc key ttl c now).1 = none) :
    cacheHitValue (getCachedData sc key ttl (getCachedData sc key ttl c now).2 now2).1 = none := by
  match key with
  | none => simp [getCachedData, cacheHitValue]
  | some k =>
    by_cases hsk : (!sc || k == "") = true
    · simp [getCachedData, hsk, cacheHitValue]
    · cases hlk : cacheLookup c k with
      | none => simp [getCachedData, hsk, hlk, cacheHitValue]
      | some it =>
        by_cases hexp : now - it.timestamp > ttl
        · simp [getCachedData, hsk, hlk, hexp, cacheLookup_cacheDelete_self, cacheHitValue]
        · have hdata : it.data.truthy = false := by
            simpa [getCachedData, hsk, hlk, hexp, cacheHitValue, truthyOpt] using h
          by_cases hexp2 : now2 - it.timestamp > ttl
          · simp [getCachedData, hsk, hlk, hexp, hexp2, cacheLookup_cacheDelete_self,
              cacheHitValue]
          · simp [getCachedData, hsk, hlk, hexp, hexp2, cacheHitValue, hdata]

/-- The invocation counter never decreases across a fetchWithRetry run. -/
theorem fetchWithRetry_calls_le (cfg : Config) (op : Nat → Except JSVal JSVal)
    (st : ReqState) (c : Cache) (now calls attempt : Nat) :
    calls ≤ (fetchWithRetry cfg op st c now calls attempt).calls := by
  induction st, c, now, calls, attempt using fetchWithRetry.induct cfg op with
  | case1 st c now calls attempt v hhit =>
    rw [fetchWithRetry, hhit]
  | case2 st c now calls attempt hhit result hop =>
    rw [fetchWithRetry, hhit, hop]
    exact Nat.le_succ calls
  | case3 st c now calls attempt hhit e hop hcond ih =>
    rw [fetchWithRetry, hhit, hop]
    simp only []
    rw [dif_pos hcond]
    exact le_trans (Nat.le_succ calls) ih
  | case4 st c now calls attempt hhit e hop hcond =>
    rw [fetchWithRetry, hhit, hop]
    simp only []
    rw [dif_neg hcond]
    exact Nat.le_succ calls

/-- When the cache check of a fetchWithRetry call misses, the
host-supplied operation is invoked at least once. -/
theorem fetchWithRetry_miss_calls_lt (cfg : Config) (op : Nat → Except JSVal JSVal)
    (st : ReqState) (c : Cache) (now calls attempt : Nat)
    (h : cacheHitValue (getCachedData cfg.shouldCache cfg.cacheKey cfg.cacheTTL c now).1 = none) :
    calls < (fetchWithRetry cfg op st c now calls attempt).calls := by
  rw [fetchWithRetry, h]
  cases hop : op calls with
  | ok r =>
    exact Nat.lt_succ_self calls
  | error e =>
    simp only []
    by_cases hc : cfg.autoRetry = true ∧ attempt < cfg.maxRetries
    · rw [dif_pos hc]
      exact lt_of_lt_of_le (Nat.lt_succ_self calls)
        (fetchWithRetry_calls_le cfg op _ _ _ _ _)
    · rw [dif_neg hc]
      exact Nat.lt_succ_self calls

/-! Claim theorems. -/

/-- C5: reset, callable in any state, restores data to the configured
initialData, clears the error, zeroes the retry counter, clears
fetchedOnce and transitions to idle; consequently reset is idempotent:
two consecutive calls yield the same observable state as one. -/
theorem reset_spec (cfg : Config) (st : ReqState) :
    reset cfg st =
      { data := cfg.initialData, status := .idle, error := none,
        retryCount := 0, isFetched := false } ∧
    reset cfg (reset cfg st) = reset cfg st :=
  ⟨rfl, rfl⟩

/-- C8: the default retryDelay function maps attempt to
min(1000 * 2 ^ attempt, 30000) milliseconds, it is the default of the
retryDelay configuration field, and in particular it yields 1000 at
attempt 0, 16000 at attempt 4, and the 30000 cap at attempt 10. -/
theorem defaultRetryDelay_spec :
    (∀ a, defaultRetryDelay a = min (1000 * 2 ^ a) 30000) ∧
    (∀ a, ({} : Config).retryDelay a = min (1000 * 2 ^ a) 30000) ∧
    defaultRetryDelay 0 = 1000 ∧ defaultRetryDelay 4 = 16000 ∧
    defaultRetryDelay 10 = 30000 :=
  ⟨fun _ => rfl, fun _ => rfl, by decide, by decide, by decide⟩

/-- C2: for a truthy cache key k, a get performed at time now after
set(k, v, t0) returns v exactly when now - t0 is at most the ttl; when
now - t0 exceeds the ttl the get returns absent and the entry is
removed from the store. -/
theorem getCachedData_after_set (c : Cache) (k : String) (hk : (k == "") = false)
    (v : JSVal) (t0 ttl now : Nat) :
    ((getCachedData true (some k) ttl (cacheSet c k ⟨v, t0⟩) now).1 = some v ↔
      now - t0 ≤ ttl) ∧
    (ttl < now - t0 →
      (getCachedData true (some k) ttl (cacheSet c k ⟨v, t0⟩) now).1 = none ∧
      cacheLookup (getCachedData true (some k) ttl (cacheSet c k ⟨v, t0⟩) now).2 k = none) := by
  by_cases hexp : now - t0 > ttl
  · constructor
    · simp [getCachedData, hk, cacheLookup_cacheSet_self, hexp]
      omega
    · intro hlt
      simp [getCachedData, hk, cacheLookup_cacheSet_self, hexp,
        cacheLookup_cacheDelete_self]
  · constructor
    · simp [getCachedData, hk, cacheLookup_cacheSet_self, hexp]
      omega
    · intro hlt
      omega

/-- Witness for C2: key u1, value 5 stored at time 0 with ttl 1000 is
returned by a get at time 500. -/
theorem getCachedData_after_set_witness :
    (getCachedData true (some "u1") 1000 (cacheSet [] "u1" ⟨.num 5, 0⟩) 500).1 =
      some (.num 5) :=
  ((getCachedData_after_set [] "u1" rfl (.num 5) 0 1000 500).1).mpr (by decide)

/-- C3 fails as stated: with caching enabled under cacheKey k, setData
applied to the non-null falsy value 0 forces status to success yet
performs no cache write: the store is left empty. -/
theorem setData_writeThrough_cex :
    (setData { shouldCache := true, cacheKey := some "k" }
        ⟨none, .idle, none, 0, false⟩ [] 0 (some (.num 0))).1.status = .success ∧
    some (JSVal.num 0) ≠ none ∧
    (setData { shouldCache := true, cacheKey := some "k" }
        ⟨none, .idle, none, 0, false⟩ [] 0 (some (.num 0))).2 = [] := by
  refine ⟨rfl, by decide, rfl⟩

/-- C3 (amended): setData, callable in any state, overwrites data with
the given value, never modifies error, the retry counter or the
fetchedOnce flag, forces status to success exactly for non-null
values, leaves the cache unchanged when the value is falsy, and writes
the value through to the cache when the value is truthy, caching is
enabled and the cacheKey is a truthy string. -/
theorem setData_spec (cfg : Config) (st : ReqState) (c : Cache) (now : Nat)
    (v : Option JSVal) :
    (setData cfg st c now v).1.data = v ∧
    (setData cfg st c now v).1.error = st.error ∧
    (setData cfg st c now v).1.retryCount = st.retryCount ∧
    (setData cfg st c now v).1.isFetched = st.isFetched ∧
    (setData cfg st c now v).1.status =
      (match v with | some _ => RequestStatus.success | none => st.status) ∧
    (∀ x, v = some x → x.truthy = false → (setData cfg st c now v).2 = c) ∧
    (∀ x k, v = some x → x.truthy = true → cfg.shouldCache = true →
      cfg.cacheKey = some k → (k == "") = false →
      (setData cfg st c now v).2 = cacheSet c k ⟨x, now⟩) := by
  cases v with
  | none =>
    refine ⟨rfl, rfl, rfl, rfl, rfl, ?_, ?_⟩
    · intro x hx
      cases hx
    · intro x k hx
      cases hx
  | some x =>
    refine ⟨rfl, rfl, rfl, rfl, rfl, ?_, ?_⟩
    · intro y hy hyf
      injection hy with hxy
      subst hxy
      simp [setData, hyf]
    · intro y k hy hyt hsc hck hkk
      injection hy with hxy
      subst hxy
      simp [setData, writeCache, hyt, hsc, hck, hkk]

/-- Witness for C3 (amended): a truthy value 5 set under key k with
caching enabled is written through to the store. -/
theorem setData_spec_witness :
    (setData { shouldCache := true, cacheKey := some "k" }
        ⟨none, .idle, some (.num 3), 2, false⟩ [] 7 (some (.num 5))).2 =
      cacheSet [] "k" ⟨.num 5, 7⟩ :=
  (setData_spec _ _ _ _ _).2.2.2.2.2.2 (.num 5) "k" rfl rfl rfl rfl rfl

/-- C7: the initial status is idle when manual and loading otherwise;
with manual true the mount performs zero invocations of the
host-supplied operation and does not invoke fetch, while with manual
false the auto-execute effect invokes fetch immediately. -/
theorem mount_manual_spec (cfg : Config) (op : Nat → Except JSVal JSVal)
    (c : Cache) (now : Nat) :
    ((initState cfg c now).1.status =
      (if cfg.manual then RequestStatus.idle else RequestStatus.loading)) ∧
    ((mount cfg op c now).invoked = !cfg.manual) ∧
    (cfg.manual = true → (mount cfg op c now).calls = 0) := by
  refine ⟨rfl, ?_, ?_⟩
  · by_cases hm : cfg.manual = true <;> simp [mount, hm]
  · intro hm
    simp [mount, hm]

/-- Witness for C7: mounting with manual true performs zero operation
invocations. -/
theorem mount_manual_spec_witness :
    (mount { manual := true } (fun _ => Except.ok (.num 1)) [] 0).calls = 0 :=
  (mount_manual_spec { manual := true } (fun _ => Except.ok (.num 1)) [] 0).2.2 rfl

/-- Helper for C4: across a whole fetchWithRetry run, data ends as the
ok value when the run settles successfully and is untouched when the
run fails; failed attempts and retries never write data. -/
theorem fetchWithRetry_data_eq (cfg : Config) (op : Nat → Except JSVal JSVal)
    (st : ReqState) (c : Cache) (now calls attempt : Nat) :
    (fetchWithRetry cfg op st c now calls attempt).st.data =
      (match (fetchWithRetry cfg op st c now calls attempt).result with
       | .ok v => some v
       | .error _ => st.data) := by
  induction st, c, now, calls, attempt using fetchWithRetry.induct cfg op with
  | case1 st c now calls attempt v hhit =>
    rw [fetchWithRetry, hhit]
    simp [setData]
  | case2 st c now calls attempt hhit result hop =>
    rw [fetchWithRetry, hhit, hop]
    simp [setData]
  | case3 st c now calls attempt hhit e hop hcond ih =>
    rw [fetchWithRetry, hhit, hop]
    simp only []
    rw [dif_pos hcond]
    exact ih
  | case4 st c now calls attempt hhit e hop hcond =>
    rw [fetchWithRetry, hhit, hop]
    simp only []
    rw [dif_neg hcond]

/-- C4: starting a new invoke never clears data: when the run settles
with an error the previous data value is exactly preserved, and data
changes only to the value of a settled successful attempt (a cache hit
applies the cached value through setData). With setData and reset,
these are the only writers of data. -/
theorem fetch_never_clears_data (cfg : Config) (op : Nat → Except JSVal JSVal)
    (st : ReqState) (c : Cache) (now calls : Nat) :
    (fetch cfg op st c now calls).st.data =
      (match (fetch cfg op st c now calls).result with
       | .ok v => some v
       | .error _ => st.data) :=
  fetchWithRetry_data_eq cfg op { st with status := .loading } c now calls 0

/-- Helper for C6: when a fetchWithRetry run resolves successfully and
invoked the operation at least once, the final retry counter is 0. The
invocation-count hypothesis rules out the run that resolved purely
from the cache; a run that missed the cache once keeps missing it, so
its success ends in the operation-success branch, which zeroes the
counter. -/
theorem fetchWithRetry_ok_retryCount (cfg : Config) (op : Nat → Except JSVal JSVal)
    (st : ReqState) (c : Cache) (now calls attempt : Nat) :
    ∀ v, (fetchWithRetry cfg op st c now calls attempt).result = .ok v →
      calls < (fetchWithRetry cfg op st c now calls attempt).calls →
      (fetchWithRetry cfg op st c now calls attempt).st.retryCount = 0 := by
  induction st, c, now, calls, attempt using fetchWithRetry.induct cfg op with
  | case1 st c now calls attempt v hhit =>
    intro w hok hcalls
    rw [fetchWithRetry, hhit] at hcalls
    exact absurd hcalls (lt_irrefl calls)
  | case2 st c now calls attempt hhit result hop =>
    intro w hok hcalls
    rw [fetchWithRetry, hhit, hop]
  | case3 st c now calls attempt hhit e hop hcond ih =>
    intro w hok hcalls
    rw [fetchWithRetry, hhit, hop] at hok ⊢
    simp only [] at hok ⊢
    rw [dif_pos hcond] at hok ⊢
    have hmiss2 := getCachedData_miss_persists cfg.shouldCache cfg.cacheKey cfg.cacheTTL c now
      (now + cfg.delay + cfg.retryDelay attempt) hhit
    have hlt := fetchWithRetry_miss_calls_lt cfg op
      { st with error := some e, status := .error, isFetched := true, retryCount := attempt + 1 }
      (getCachedData cfg.shouldCache cfg.cacheKey cfg.cacheTTL c now).2
      (now + cfg.delay + cfg.retryDelay attempt) (calls + 1) (attempt + 1) hmiss2
    exact ih w hok hlt
  | case4 st c now calls attempt hhit e hop hcond =>
    intro w hok hcalls
    rw [fetchWithRetry, hhit, hop] at hok
    simp only [] at hok
    rw [dif_neg hcond] at hok
    cases hok

/-- C6: after any invoke that ends in a successful attempt, meaning
the run settled ok and the host-supplied operation was invoked at
least once, the internal retry counter is 0, regardless of failures
earlier in this invoke or left over in the starting state from earlier
invocations. -/
theorem fetch_success_retryCount_zero (cfg : Config) (op : Nat → Except JSVal JSVal)
    (st : ReqState) (c : Cache) (now calls : Nat) (v : JSVal)
    (hok : (fetch cfg op st c now calls).result = .ok v)
    (hcalls : calls < (fetch cfg op st c now calls).calls) :
    (fetch cfg op st c now calls).st.retryCount = 0 :=
  fetchWithRetry_ok_retryCount cfg op { st with status := .loading } c now calls 0 v hok hcalls

/-- Witness for C6: an invoke whose first attempt fails and whose
retry succeeds, starting from a state with a stale retry counter of 5,
ends with the retry counter equal to 0. -/
theorem fetch_success_retryCount_zero_witness :
    (fetch { autoRetry := true }
        (fun n => if n == 0 then .error (.num 1) else .ok (.num 7))
        ⟨none, .idle, none, 5, false⟩ [] 0 0).st.retryCount = 0 :=
  fetch_success_retryCount_zero { autoRetry := true }
    (fun n => if n == 0 then .error (.num 1) else .ok (.num 7))
    ⟨none, .idle, none, 5, false⟩ [] 0 0 (.num 7)
    (by simp [fetch, fetchWithRetry, getCachedData, cacheHitValue, setData, writeCache])
    (by simp [fetch, fetchWithRetry, getCachedData, cacheHitValue, setData, writeCache])

/-- C1 fails as stated: with autoRetry and maxRetries 2 and an
operation failing with a fresh error on each attempt, exactly 3
invocations occur, but the promise rejects with the error of the third
attempt, number 2, not with the original error of the first attempt,
number 0. -/
theorem fetch_retry_original_error_cex :
    (fetch { autoRetry := true, maxRetries := 2 } (fun n => .error (.num n))
        ⟨none, .idle, none, 0, false⟩ [] 0 0).calls = 3 ∧
    (fetch { autoRetry := true, maxRetries := 2 } (fun n => .error (.num n))
        ⟨none, .idle, none, 0, false⟩ [] 0 0).result = .error (.num 2) ∧
    (Except.error (JSVal.num 2) : Except JSVal JSVal) ≠ .error (.num 0) := by
  refine ⟨?_, ?_, by decide⟩ <;>
    simp [fetch, fetchWithRetry, getCachedData, cacheHitValue, setData, writeCache]

/-- C1 (amended): with autoRetry and maxRetries 2 and caching off, an
operation that always fails is invoked exactly 3 times (the initial
attempt plus 2 retries) and the promise rejects with the error of the
final, third attempt; when every attempt fails with one and the same
error value this coincides with the error of the first attempt. -/
theorem fetch_alwaysFails_spec (cfg0 : Config) (errs : Nat → JSVal)
    (st : ReqState) (c : Cache) (now calls : Nat) :
    (fetch { cfg0 with autoRetry := true, maxRetries := 2, shouldCache := false, cacheKey := none }
      (fun n => .error (errs n)) st c now calls).calls = calls + 3 ∧
    (fetch { cfg0 with autoRetry := true, maxRetries := 2, shouldCache := false, cacheKey := none }
      (fun n => .error (errs n)) st c now calls).result = .error (errs (calls + 2)) := by
  constructor <;>
    simp [fetch, fetchWithRetry, getCachedData, cacheHitValue]

/-- C10: an invoke that resolves via a cache hit returns the cached
value and sets status to success, performs no operation invocation,
and leaves isFetched and the retry counter unchanged: isFetched stays
false when no real attempt ever settled, and a non-zero retry counter
left by earlier failures persists through the cache-hit success. -/
theorem fetch_cache_hit_frame (cfg0 : Config) (k : String) (x : JSVal)
    (t0 ttl now : Nat) (c : Cache) (st : ReqState)
    (op : Nat → Except JSVal JSVal) (calls : Nat)
    (hk : (k == "") = false) (hx : x.truthy = true)
    (hlk : cacheLookup c k = some ⟨x, t0⟩) (hfresh : now - t0 ≤ ttl) :
    (fetch { cfg0 with shouldCache := true, cacheKey := some k, cacheTTL := ttl }
        op st c now calls).result = .ok x ∧
    (fetch { cfg0 with shouldCache := true, cacheKey := some k, cacheTTL := ttl }
        op st c now calls).st.status = .success ∧
    (fetch { cfg0 with shouldCache := true, cacheKey := some k, cacheTTL := ttl }
        op st c now calls).st.isFetched = st.isFetched ∧
    (fetch { cfg0 with shouldCache := true, cacheKey := some k, cacheTTL := ttl }
        op st c now calls).st.retryCount = st.retryCount ∧
    (fetch { cfg0 with shouldCache := true, cacheKey := some k, cacheTTL := ttl }
        op st c now calls).calls = calls := by
  have hget : getCachedData true (some k) ttl c now = (some x, c) := by
    have hne : ¬(now - t0 > ttl) := by omega
    simp [getCachedData, hk, hlk, hne]
  rw [fetch, fetchWithRetry]
  simp only [hget]
  simp [cacheHitValue, setData, hx]

/-- Witness for C10: a fresh truthy cached value 5 under key u1 is
returned by an invoke started with a stale retry counter of 2 and
isFetched false, and both survive unchanged while no invocation
happens. -/
theorem fetch_cache_hit_frame_witness :
    (fetch { shouldCache := true, cacheKey := some "u1", cacheTTL := 1000 }
        (fun _ => .ok (.num 9)) ⟨none, .error, some (.num 1), 2, false⟩
        [("u1", ⟨.num 5, 0⟩)] 500 4).st.retryCount = 2 ∧
    (fetch { shouldCache := true, cacheKey := some "u1", cacheTTL := 1000 }
        (fun _ => .ok (.num 9)) ⟨none, .error, some (.num 1), 2, false⟩
        [("u1", ⟨.num 5, 0⟩)] 500 4).calls = 4 :=
  ⟨(fetch_cache_hit_frame {} "u1" (.num 5) 0 1000 500 [("u1", ⟨.num 5, 0⟩)]
      ⟨none, .error, some (.num 1), 2, false⟩ (fun _ => .ok (.num 9)) 4
      rfl rfl (by decide) (by decide)).2.2.2.1,
   (fetch_cache_hit_frame {} "u1" (.num 5) 0 1000 500 [("u1", ⟨.num 5, 0⟩)]
      ⟨none, .error, some (.num 1), 2, false⟩ (fun _ => .ok (.num 9)) 4
      rfl rfl (by decide) (by decide)).2.2.2.2⟩

/-- C9: when caching is enabled and the stored, unexpired cached value
under the cacheKey is falsy but non-null, an invoke behaves as on a
cache miss and invokes the host-supplied operation, and the initial
data of the hook is taken from initialData rather than from that
cached value. -/
theorem fetch_falsy_cached_value (cfg0 : Config) (k : String) (x : JSVal)
    (t0 ttl now : Nat) (c : Cache) (st : ReqState)
    (op : Nat → Except JSVal JSVal) (calls : Nat)
    (hk : (k == "") = false) (hx : x.truthy = false)
    (hlk : cacheLookup c k = some ⟨x, t0⟩) (hfresh : now - t0 ≤ ttl) :
    calls < (fetch { cfg0 with shouldCache := true, cacheKey := some k, cacheTTL := ttl }
        op st c now calls).calls ∧
    (initState { cfg0 with shouldCache := true, cacheKey := some k, cacheTTL := ttl }
        c now).1.data = cfg0.initialData := by
  have hget : getCachedData true (some k) ttl c now = (some x, c) := by
    have hne : ¬(now - t0 > ttl) := by omega
    simp [getCachedData, hk, hlk, hne]
  constructor
  · rw [fetch]
    apply fetchWithRetry_miss_calls_lt
    simp only []
    rw [hget]
    simp [cacheHitValue, hx]
  · rw [initState]
    simp only [hget]
    simp [hx]

/-- Witness for C9: a fresh cached 0 under key u1 does not short
circuit the invoke, the operation runs, and the initial data is the
configured initialData 42. -/
theorem fetch_falsy_cached_value_witness :
    0 < (fetch { initialData := some (.num 42), shouldCache := true, cacheKey := some "u1", cacheTTL := 1000 }
        (fun _ => .ok (.num 9)) ⟨none, .idle, none, 0, false⟩
        [("u1", ⟨.num 0, 0⟩)] 500 0).calls ∧
    (initState { initialData := some (.num 42), shouldCache := true, cacheKey := some "u1", cacheTTL := 1000 }
        [("u1", ⟨.num 0, 0⟩)] 500).1.data = some (.num 42) :=
  fetch_falsy_cached_value { initialData := some (.num 42) } "u1" (.num 0) 0 1000 500
    [("u1", ⟨.num 0, 0⟩)] ⟨none, .idle, none, 0, false⟩ (fun _ => .ok (.num 9)) 0
    rfl rfl (by decide) (by decide)

end UseApiRequest
